import Mathlib

/-!
Verification development for the ControlPlane Python SDK
(`packages/sdk-generator/sdks/python/controlplane_sdk`).

The SDK consists of declarative pydantic model classes (`models.py`),
a schema registry (`schemas.py`), validation helpers (`validation.py`)
and a thin HTTP client wrapper (`client.py`).  We give a shallow
embedding of the data model and of every operation the specification
talks about, and prove (or refute) the specified properties.

Python run-time values that can appear in the JSON-like dictionaries
handled by the SDK are modelled by `Value`.  Model classes are modelled
as `SrcShape`: a list of fields, each carrying its annotated type and,
when the source gives one, its default expression exactly as written in
the Python source (`PyExpr`).  Evaluating the default expressions — as
Python does when the class body is executed at import time — elaborates
a `SrcShape` into a `Shape`, the form the validator consumes.
-/

set_option linter.unusedVariables false

namespace ControlPlaneSDK

/-- A Python/JSON run-time value as handled by the SDK dictionaries. -/
inductive Value where
  | vstr (s : String)
  | vint (n : Int)
  | vfloat (q : Rat)
  | vbool (b : Bool)
  | vnone
  | vlist (xs : List Value)
  | vdict (kvs : List (String × Value))

/-- An atomic Python default expression as written in the source of
`models.py`: either a literal value, or a bare name that must be
resolved against the builtin environment when the class body is
executed. -/
inductive PyAtom where
  | lit (v : Value)
  | name (s : String)

/-- A Python default expression of `models.py`: an atom, or a dict
display whose entries are atomic (the only compound defaults occurring
in the source are flat dict literals). -/
inductive PyExpr where
  | atom (a : PyAtom)
  | dictE (kvs : List (String × PyAtom))

/-- A literal default expression. -/
def PyExpr.litv (v : Value) : PyExpr :=
  PyExpr.atom (PyAtom.lit v)

/-- A bare-name default expression. -/
def PyExpr.bare (s : String) : PyExpr :=
  PyExpr.atom (PyAtom.name s)

/-- Resolution of bare names occurring in default expressions of
`models.py`.  Python resolves `True`, `False` and `None`; any other bare
name raises `NameError` at class-definition (import) time. -/
def resolveName : String → Option Value
  | "True" => some (Value.vbool true)
  | "False" => some (Value.vbool false)
  | "None" => some Value.vnone
  | _ => none

/-- Evaluate an atomic expression; `none` models a raised `NameError`. -/
def evalAtom : PyAtom → Option Value
  | PyAtom.lit v => some v
  | PyAtom.name s => resolveName s

/-- Evaluate the entries of a dict display, left to right, failing as
soon as one entry fails. -/
def evalAtoms : List (String × PyAtom) → Option (List (String × Value))
  | [] => some []
  | (k, a) :: rest =>
      match evalAtom a, evalAtoms rest with
      | some v, some vs => some ((k, v) :: vs)
      | _, _ => none

/-- Evaluate a default expression; `none` models a `NameError` raised
while the class body executes. -/
def evalPyExpr : PyExpr → Option Value
  | PyExpr.atom a => evalAtom a
  | PyExpr.dictE kvs =>
      match evalAtoms kvs with
      | some kvs => some (Value.vdict kvs)
      | none => none

/-- The field type annotations occurring in `models.py`. -/
inductive FieldType where
  | pystr
  | pyint
  | pyfloat
  | pybool
  | pydatetime
  | litstr (cs : List String)
  | anyv
  | opt (t : FieldType)
  | listv (t : FieldType)
  | dictAny
  | dictStr
  | jsonUnion

/-- Modelled from the spec: timestamps are "encoded in a standard
date-time text format"; the third-party validation library parses
ISO-8601 strings.  We check the `YYYY-MM-DDTHH:MM:SS` prefix and accept
any suffix (fractional seconds, timezone designators).  No claim depends
on the finer details of date parsing. -/
def isIsoDatetime (s : String) : Bool :=
  match s.toList with
  | y1 :: y2 :: y3 :: y4 :: h1 :: mo1 :: mo2 :: h2 :: d1 :: d2 :: sep :: hh1 :: hh2 :: c1 :: mi1 :: mi2 :: c2 :: ss1 :: ss2 :: _ =>
      y1.isDigit && y2.isDigit && y3.isDigit && y4.isDigit &&
      h1 == '-' && mo1.isDigit && mo2.isDigit && h2 == '-' &&
      d1.isDigit && d2.isDigit && (sep == 'T' || sep == ' ') &&
      hh1.isDigit && hh2.isDigit && c1 == ':' && mi1.isDigit && mi2.isDigit &&
      c2 == ':' && ss1.isDigit && ss2.isDigit
  | _ => false

/-- Modelled from the spec: the type check performed per field by the
external validation library (`model_validate`), per §3/§4.2 of the
specification — values must match the declared semantic type (an `int`
is accepted where a `float` is declared, as JSON numbers are), and
enumerated-string fields must be a member of their literal set. -/
def typeCheck : FieldType → Value → Bool
  | FieldType.pystr => fun v =>
      match v with
      | Value.vstr _ => true
      | _ => false
  | FieldType.pyint => fun v =>
      match v with
      | Value.vint _ => true
      | _ => false
  | FieldType.pyfloat => fun v =>
      match v with
      | Value.vfloat _ => true
      | Value.vint _ => true
      | _ => false
  | FieldType.pybool => fun v =>
      match v with
      | Value.vbool _ => true
      | _ => false
  | FieldType.pydatetime => fun v =>
      match v with
      | Value.vstr s => isIsoDatetime s
      | _ => false
  | FieldType.litstr cs => fun v =>
      match v with
      | Value.vstr s => cs.contains s
      | _ => false
  | FieldType.anyv => fun _ => true
  | FieldType.opt t => fun v =>
      match v with
      | Value.vnone => true
      | v => typeCheck t v
  | FieldType.listv t => fun v =>
      match v with
      | Value.vlist xs => xs.all (typeCheck t)
      | _ => false
  | FieldType.dictAny => fun v =>
      match v with
      | Value.vdict _ => true
      | _ => false
  | FieldType.dictStr => fun v =>
      match v with
      | Value.vdict kvs => kvs.all (fun kv =>
          match kv.2 with
          | Value.vstr _ => true
          | _ => false)
      | _ => false
  | FieldType.jsonUnion => fun v =>
      match v with
      | Value.vstr _ => true
      | Value.vfloat _ => true
      | Value.vint _ => true
      | Value.vbool _ => true
      | Value.vnone => true
      | Value.vlist _ => true
      | Value.vdict _ => true

/-- A field as written in the source of `models.py`: its name, its type
annotation, and its default expression when the source declares one
(`none` means the field has no default, hence is required). -/
structure SrcFieldSpec where
  name : String
  ftype : FieldType
  dflt : Option PyExpr

/-- A model class as written in the source of `models.py`. -/
structure SrcShape where
  name : String
  fields : List SrcFieldSpec

/-- A field after the class body has executed: the default expression,
when present, has been evaluated to a value. -/
structure FieldSpec where
  name : String
  ftype : FieldType
  dflt : Option Value

/-- A model class after import: the shape the validator consumes. -/
structure Shape where
  name : String
  fields : List FieldSpec

/-- Executing one field declaration of a class body: evaluating the
default expression; `none` models the `NameError` Python raises when the
default is an unresolvable bare name. -/
def elabField (f : SrcFieldSpec) : Option FieldSpec :=
  match f.dflt with
  | none => some ⟨f.name, f.ftype, none⟩
  | some e =>
      match evalPyExpr e with
      | some v => some ⟨f.name, f.ftype, some v⟩
      | none => none

/-- Executing all field declarations of a class body in order. -/
def elabFields : List SrcFieldSpec → Option (List FieldSpec)
  | [] => some []
  | f :: fs =>
      match elabField f, elabFields fs with
      | some g, some gs => some (g :: gs)
      | _, _ => none

/-- Executing a class body of `models.py` at import time. -/
def elabShape (s : SrcShape) : Option Shape :=
  match elabFields s.fields with
  | some gs => some ⟨s.name, gs⟩
  | none => none

/-- Python dictionary lookup on the JSON-like mappings the SDK handles
(first binding wins; the dictionaries built from JSON have unique keys). -/
def getKey (d : List (String × Value)) (k : String) : Option Value :=
  match d.find? (fun kv => kv.1 == k) with
  | some kv => some kv.2
  | none => none

/-- One field-level validation failure: the field path and a message,
as reported by the validation error. -/
structure VError where
  path : List String
  msg : String
deriving DecidableEq

/-- Modelled from the spec: per-field handling of `model_validate`
(§4.2) — a present value must pass the type check, an absent optional
field takes its declared default, an absent required field is an error
cited under the field name. -/
def checkField (d : List (String × Value)) (f : FieldSpec) : Except VError (String × Value) :=
  match getKey d f.name with
  | some v =>
      if typeCheck f.ftype v then Except.ok (f.name, v)
      else Except.error ⟨[f.name], "type error"⟩
  | none =>
      match f.dflt with
      | some v => Except.ok (f.name, v)
      | none => Except.error ⟨[f.name], "Field required"⟩

/-- The field-level failures among the per-field results. -/
def collectErrs (rs : List (Except VError (String × Value))) : List VError :=
  rs.filterMap (fun r =>
    match r with
    | Except.error e => some e
    | Except.ok _ => none)

/-- The successfully validated bindings among the per-field results. -/
def collectOks (rs : List (Except VError (String × Value))) : List (String × Value) :=
  rs.filterMap (fun r =>
    match r with
    | Except.ok kv => some kv
    | Except.error _ => none)

/-- Modelled from the spec: `model_class.model_validate(data)` of the
external validation library, per §4.2 — every declared field is checked
against `data`, all field-level failures are collected into one
validation error, keys of `data` that no field declares are never
consulted, and on success the instance binds every declared field (the
declared default substituted where `data` omits an optional field). -/
def model_validate (S : Shape) (d : List (String × Value)) : Except (List VError) (List (String × Value)) :=
  let rs := S.fields.map (checkField d)
  match collectErrs rs with
  | [] => Except.ok (collectOks rs)
  | e :: es => Except.error (e :: es)

/-- `validation.validate(model_class, data)`: returns
`model_class.model_validate(data)`. -/
def validate (S : Shape) (d : List (String × Value)) : Except (List VError) (List (String × Value)) :=
  model_validate S d

/-- The tagged dictionary returned by `safe_validate`: either
`{success: True, data: ...}` or `{success: False, error: ...}`. -/
inductive SafeResult where
  | ok (data : List (String × Value))
  | failed (err : List VError)

/-- The `success` flag of the tagged result. -/
def SafeResult.success : SafeResult → Bool
  | SafeResult.ok _ => true
  | SafeResult.failed _ => false

/-- `validation.safe_validate(model_class, data)`: calls `validate`
inside `try`, catching `ValidationError`. -/
def safe_validate (S : Shape) (d : List (String × Value)) : SafeResult :=
  match validate S d with
  | Except.ok inst => SafeResult.ok inst
  | Except.error e => SafeResult.failed e

/-! ### Literal sets of the enumerated-string annotations of `models.py` -/

def errorSeverityLits : List String :=
  ["fatal", "error", "warning", "info"]

def errorCategoryLits : List String :=
  ["VALIDATION_ERROR", "SCHEMA_MISMATCH", "RUNTIME_ERROR", "TIMEOUT",
   "NETWORK_ERROR", "AUTHENTICATION_ERROR", "AUTHORIZATION_ERROR",
   "RESOURCE_NOT_FOUND", "RESOURCE_CONFLICT", "RATE_LIMITED",
   "SERVICE_UNAVAILABLE", "RUNNER_ERROR", "TRUTHCORE_ERROR", "INTERNAL_ERROR"]

def jobStatusLits : List String :=
  ["pending", "queued", "running", "completed", "failed", "cancelled", "retrying"]

def runnerStatusLits : List String :=
  ["healthy", "degraded", "unhealthy", "offline"]

def heartbeatStatusLits : List String :=
  ["healthy", "degraded", "unhealthy"]

def truthRequestTypeLits : List String :=
  ["assert", "query", "subscribe", "unsubscribe"]

def consistencyLevelLits : List String :=
  ["strict", "eventual", "best_effort"]

def healthStatusLits : List String :=
  ["healthy", "degraded", "unhealthy", "unknown"]

def environmentLits : List String :=
  ["development", "staging", "production"]

def sortOrderLits : List String :=
  ["asc", "desc"]

def httpMethodLits : List String :=
  ["GET", "POST", "PUT", "PATCH", "DELETE"]

def runnerCategoryLits : List String :=
  ["ops", "finops", "support", "growth", "analytics", "security",
   "infrastructure", "custom"]

def connectorTypeLits : List String :=
  ["database", "queue", "storage", "api", "webhook", "stream", "cache",
   "messaging"]

def connectorStatusLits : List String :=
  ["connected", "disconnected", "error", "unknown"]

def registryHealthLits : List String :=
  ["healthy", "degraded", "unhealthy", "offline", "any"]

def marketplaceItemStatusLits : List String :=
  ["active", "deprecated", "pending_review", "rejected", "delisted"]

def marketplaceQueryTypeLits : List String :=
  ["runner", "connector", "all"]

def marketplaceQueryStatusLits : List String :=
  ["active", "deprecated", "pending_review", "all"]

def trustLevelLits : List String :=
  ["verified", "community", "all"]

def marketplaceSortByLits : List String :=
  ["relevance", "name", "published", "updated", "rating", "downloads"]

def trustStatusLits : List String :=
  ["verified", "pending", "failed", "unverified"]

def contractTestStatusLits : List String :=
  ["passing", "failing", "not_tested", "stale"]

def verificationMethodLits : List String :=
  ["automated_ci", "manual_review", "community_verified", "official_publisher"]

def securityScanStatusLits : List String :=
  ["passed", "failed", "pending", "not_scanned"]

def maintainerReputationLits : List String :=
  ["official", "verified", "community", "unknown"]

/-! ### The model classes of `models.py`, as written in the source.

Each `SrcShape` transcribes one class: field names, annotated types and
default expressions in declaration order.  Fields without a default are
required.  Defaults are transcribed exactly as the Python source writes
them; in particular the six boolean defaults written `false` / `true`
(not `False` / `True`) are bare names. -/

def ErrorSeverity : SrcShape :=
  ⟨"ErrorSeverity", [⟨"value", FieldType.litstr errorSeverityLits, none⟩]⟩

def ErrorCategory : SrcShape :=
  ⟨"ErrorCategory", [⟨"value", FieldType.litstr errorCategoryLits, none⟩]⟩

def RetryPolicy : SrcShape :=
  ⟨"RetryPolicy",
   [⟨"maxRetries", FieldType.pyint, some (PyExpr.litv (Value.vint 3))⟩,
    ⟨"backoffMs", FieldType.pyfloat, some (PyExpr.litv (Value.vint 1000))⟩,
    ⟨"maxBackoffMs", FieldType.pyfloat, some (PyExpr.litv (Value.vint 30000))⟩,
    ⟨"backoffMultiplier", FieldType.pyfloat, some (PyExpr.litv (Value.vint 2))⟩,
    ⟨"retryableCategories", FieldType.listv (FieldType.litstr errorCategoryLits),
     some (PyExpr.litv (Value.vlist
       [Value.vstr "TIMEOUT", Value.vstr "NETWORK_ERROR",
        Value.vstr "SERVICE_UNAVAILABLE", Value.vstr "RUNTIME_ERROR"]))⟩,
    ⟨"nonRetryableCategories", FieldType.listv (FieldType.litstr errorCategoryLits),
     some (PyExpr.litv (Value.vlist
       [Value.vstr "VALIDATION_ERROR", Value.vstr "SCHEMA_MISMATCH",
        Value.vstr "AUTHENTICATION_ERROR", Value.vstr "AUTHORIZATION_ERROR",
        Value.vstr "RESOURCE_NOT_FOUND"]))⟩]⟩

def ErrorDetail : SrcShape :=
  ⟨"ErrorDetail",
   [⟨"path", FieldType.opt (FieldType.listv FieldType.pystr), some (PyExpr.litv Value.vnone)⟩,
    ⟨"message", FieldType.pystr, none⟩,
    ⟨"code", FieldType.opt FieldType.pystr, some (PyExpr.litv Value.vnone)⟩,
    ⟨"value", FieldType.opt FieldType.anyv, some (PyExpr.litv Value.vnone)⟩]⟩

def ErrorEnvelope : SrcShape :=
  ⟨"ErrorEnvelope",
   [⟨"id", FieldType.pystr, none⟩,
    ⟨"timestamp", FieldType.pydatetime, none⟩,
    ⟨"category", FieldType.litstr errorCategoryLits, none⟩,
    ⟨"severity", FieldType.litstr errorSeverityLits, none⟩,
    ⟨"code", FieldType.pystr, none⟩,
    ⟨"message", FieldType.pystr, none⟩,
    ⟨"details", FieldType.listv FieldType.dictAny, some (PyExpr.litv (Value.vlist []))⟩,
    ⟨"service", FieldType.pystr, none⟩,
    ⟨"operation", FieldType.opt FieldType.pystr, some (PyExpr.litv Value.vnone)⟩,
    ⟨"correlationId", FieldType.opt FieldType.pystr, some (PyExpr.litv Value.vnone)⟩,
    ⟨"causationId", FieldType.opt FieldType.pystr, some (PyExpr.litv Value.vnone)⟩,
    ⟨"retryable", FieldType.pybool, some (PyExpr.bare "false")⟩,
    ⟨"retryAfter", FieldType.opt FieldType.pyfloat, some (PyExpr.litv Value.vnone)⟩,
    ⟨"contractVersion", FieldType.dictAny, none⟩]⟩

def ContractVersion : SrcShape :=
  ⟨"ContractVersion",
   [⟨"major", FieldType.pyint, none⟩,
    ⟨"minor", FieldType.pyint, none⟩,
    ⟨"patch", FieldType.pyint, none⟩,
    ⟨"preRelease", FieldType.opt FieldType.pystr, some (PyExpr.litv Value.vnone)⟩]⟩

def ContractRange : SrcShape :=
  ⟨"ContractRange",
   [⟨"min", FieldType.dictAny, none⟩,
    ⟨"max", FieldType.opt FieldType.dictAny, some (PyExpr.litv Value.vnone)⟩,
    ⟨"exact", FieldType.opt FieldType.dictAny, some (PyExpr.litv Value.vnone)⟩]⟩

def JobId : SrcShape :=
  ⟨"JobId", [⟨"value", FieldType.anyv, none⟩]⟩

def JobStatus : SrcShape :=
  ⟨"JobStatus", [⟨"value", FieldType.litstr jobStatusLits, none⟩]⟩

def JobPriority : SrcShape :=
  ⟨"JobPriority", [⟨"value", FieldType.anyv, none⟩]⟩

def JobMetadata : SrcShape :=
  ⟨"JobMetadata",
   [⟨"source", FieldType.pystr, none⟩,
    ⟨"userId", FieldType.opt FieldType.pystr, some (PyExpr.litv Value.vnone)⟩,
    ⟨"sessionId", FieldType.opt FieldType.pystr, some (PyExpr.litv Value.vnone)⟩,
    ⟨"correlationId", FieldType.opt FieldType.pystr, some (PyExpr.litv Value.vnone)⟩,
    ⟨"causationId", FieldType.opt FieldType.pystr, some (PyExpr.litv Value.vnone)⟩,
    ⟨"tags", FieldType.listv FieldType.pystr, some (PyExpr.litv (Value.vlist []))⟩,
    ⟨"createdAt", FieldType.pydatetime, none⟩,
    ⟨"scheduledAt", FieldType.opt FieldType.pydatetime, some (PyExpr.litv Value.vnone)⟩,
    ⟨"expiresAt", FieldType.opt FieldType.pydatetime, some (PyExpr.litv Value.vnone)⟩]⟩

def JobPayload : SrcShape :=
  ⟨"JobPayload",
   [⟨"type", FieldType.pystr, none⟩,
    ⟨"version", FieldType.pystr, some (PyExpr.litv (Value.vstr "1.0.0"))⟩,
    ⟨"data", FieldType.dictAny, none⟩,
    ⟨"options", FieldType.dictAny, some (PyExpr.litv (Value.vdict []))⟩]⟩

def JobRequest : SrcShape :=
  ⟨"JobRequest",
   [⟨"id", FieldType.pystr, none⟩,
    ⟨"type", FieldType.pystr, none⟩,
    ⟨"priority", FieldType.pyint, some (PyExpr.litv (Value.vint 50))⟩,
    ⟨"payload", FieldType.dictAny, none⟩,
    ⟨"metadata", FieldType.dictAny, none⟩,
    ⟨"retryPolicy", FieldType.dictAny,
     some (PyExpr.litv (Value.vdict
       [("maxRetries", Value.vint 3),
        ("backoffMs", Value.vint 1000),
        ("maxBackoffMs", Value.vint 30000),
        ("backoffMultiplier", Value.vint 2),
        ("retryableCategories", Value.vlist []),
        ("nonRetryableCategories", Value.vlist [])]))⟩,
    ⟨"timeoutMs", FieldType.pyfloat, some (PyExpr.litv (Value.vint 30000))⟩]⟩

def JobResult : SrcShape :=
  ⟨"JobResult",
   [⟨"success", FieldType.pybool, none⟩,
    ⟨"data", FieldType.opt FieldType.anyv, some (PyExpr.litv Value.vnone)⟩,
    ⟨"error", FieldType.opt FieldType.dictAny, some (PyExpr.litv Value.vnone)⟩,
    ⟨"metadata", FieldType.dictAny, none⟩]⟩

def JobResponse : SrcShape :=
  ⟨"JobResponse",
   [⟨"id", FieldType.pystr, none⟩,
    ⟨"status", FieldType.litstr jobStatusLits, none⟩,
    ⟨"request", FieldType.dictAny, none⟩,
    ⟨"result", FieldType.opt FieldType.dictAny, some (PyExpr.litv Value.vnone)⟩,
    ⟨"error", FieldType.opt FieldType.dictAny, some (PyExpr.litv Value.vnone)⟩,
    ⟨"updatedAt", FieldType.pydatetime, none⟩]⟩

def RunnerCapability : SrcShape :=
  ⟨"RunnerCapability",
   [⟨"id", FieldType.pystr, none⟩,
    ⟨"name", FieldType.pystr, none⟩,
    ⟨"version", FieldType.pystr, none⟩,
    ⟨"description", FieldType.pystr, none⟩,
    ⟨"inputSchema", FieldType.dictAny, none⟩,
    ⟨"outputSchema", FieldType.dictAny, none⟩,
    ⟨"supportedJobTypes", FieldType.listv FieldType.pystr, none⟩,
    ⟨"maxConcurrency", FieldType.pyint, some (PyExpr.litv (Value.vint 1))⟩,
    ⟨"timeoutMs", FieldType.pyfloat, some (PyExpr.litv (Value.vint 30000))⟩,
    ⟨"resourceRequirements", FieldType.dictAny, some (PyExpr.litv (Value.vdict []))⟩]⟩

def RunnerMetadata : SrcShape :=
  ⟨"RunnerMetadata",
   [⟨"id", FieldType.pystr, none⟩,
    ⟨"name", FieldType.pystr, none⟩,
    ⟨"version", FieldType.pystr, none⟩,
    ⟨"contractVersion", FieldType.dictAny, none⟩,
    ⟨"capabilities", FieldType.listv FieldType.dictAny, none⟩,
    ⟨"supportedContracts", FieldType.listv FieldType.pystr, none⟩,
    ⟨"healthCheckEndpoint", FieldType.pystr, none⟩,
    ⟨"registeredAt", FieldType.pydatetime, none⟩,
    ⟨"lastHeartbeatAt", FieldType.pydatetime, none⟩,
    ⟨"status", FieldType.litstr runnerStatusLits, some (PyExpr.litv (Value.vstr "healthy"))⟩,
    ⟨"tags", FieldType.listv FieldType.pystr, some (PyExpr.litv (Value.vlist []))⟩]⟩

def RunnerRegistrationRequest : SrcShape :=
  ⟨"RunnerRegistrationRequest",
   [⟨"name", FieldType.pystr, none⟩,
    ⟨"version", FieldType.pystr, none⟩,
    ⟨"contractVersion", FieldType.dictAny, none⟩,
    ⟨"capabilities", FieldType.listv FieldType.dictAny, none⟩,
    ⟨"healthCheckEndpoint", FieldType.pystr, none⟩,
    ⟨"tags", FieldType.listv FieldType.pystr, some (PyExpr.litv (Value.vlist []))⟩]⟩

def RunnerRegistrationResponse : SrcShape :=
  ⟨"RunnerRegistrationResponse",
   [⟨"runnerId", FieldType.pystr, none⟩,
    ⟨"registeredAt", FieldType.pydatetime, none⟩,
    ⟨"heartbeatIntervalMs", FieldType.pyfloat, some (PyExpr.litv (Value.vint 30000))⟩]⟩

def RunnerHeartbeat : SrcShape :=
  ⟨"RunnerHeartbeat",
   [⟨"runnerId", FieldType.pystr, none⟩,
    ⟨"timestamp", FieldType.pydatetime, none⟩,
    ⟨"status", FieldType.litstr heartbeatStatusLits, none⟩,
    ⟨"activeJobs", FieldType.pyint, some (PyExpr.litv (Value.vint 0))⟩,
    ⟨"queuedJobs", FieldType.pyint, some (PyExpr.litv (Value.vint 0))⟩,
    ⟨"metrics", FieldType.dictAny, some (PyExpr.litv (Value.vdict []))⟩]⟩

def ModuleManifest : SrcShape :=
  ⟨"ModuleManifest",
   [⟨"id", FieldType.pystr, none⟩,
    ⟨"name", FieldType.pystr, none⟩,
    ⟨"version", FieldType.pystr, none⟩,
    ⟨"description", FieldType.pystr, none⟩,
    ⟨"entryPoint", FieldType.pystr, none⟩,
    ⟨"contractVersion", FieldType.dictAny, none⟩,
    ⟨"capabilities", FieldType.listv FieldType.dictAny, none⟩,
    ⟨"dependencies", FieldType.listv FieldType.pystr, some (PyExpr.litv (Value.vlist []))⟩,
    ⟨"configSchema", FieldType.opt FieldType.dictAny, some (PyExpr.litv Value.vnone)⟩,
    ⟨"defaultConfig", FieldType.dictAny, some (PyExpr.litv (Value.vdict []))⟩]⟩

def RunnerExecutionRequest : SrcShape :=
  ⟨"RunnerExecutionRequest",
   [⟨"jobId", FieldType.pystr, none⟩,
    ⟨"moduleId", FieldType.pystr, none⟩,
    ⟨"capabilityId", FieldType.pystr, none⟩,
    ⟨"payload", FieldType.dictAny, none⟩,
    ⟨"timeoutMs", FieldType.pyfloat, some (PyExpr.litv (Value.vint 30000))⟩,
    ⟨"metadata", FieldType.dictAny, some (PyExpr.litv (Value.vdict []))⟩]⟩

def RunnerExecutionResponse : SrcShape :=
  ⟨"RunnerExecutionResponse",
   [⟨"jobId", FieldType.pystr, none⟩,
    ⟨"success", FieldType.pybool, none⟩,
    ⟨"data", FieldType.opt FieldType.anyv, some (PyExpr.litv Value.vnone)⟩,
    ⟨"error", FieldType.opt FieldType.dictAny, some (PyExpr.litv Value.vnone)⟩,
    ⟨"executionTimeMs", FieldType.pyfloat, none⟩,
    ⟨"runnerId", FieldType.pystr, none⟩]⟩

def TruthAssertion : SrcShape :=
  ⟨"TruthAssertion",
   [⟨"id", FieldType.pystr, none⟩,
    ⟨"subject", FieldType.pystr, none⟩,
    ⟨"predicate", FieldType.pystr, none⟩,
    ⟨"object", FieldType.jsonUnion, none⟩,
    ⟨"confidence", FieldType.pyfloat, some (PyExpr.litv (Value.vint 1))⟩,
    ⟨"timestamp", FieldType.pydatetime, none⟩,
    ⟨"source", FieldType.pystr, none⟩,
    ⟨"expiresAt", FieldType.opt FieldType.pydatetime, some (PyExpr.litv Value.vnone)⟩,
    ⟨"metadata", FieldType.dictAny, some (PyExpr.litv (Value.vdict []))⟩]⟩

def TruthQuery : SrcShape :=
  ⟨"TruthQuery",
   [⟨"id", FieldType.pystr, none⟩,
    ⟨"pattern", FieldType.dictAny, none⟩,
    ⟨"filters", FieldType.dictAny, some (PyExpr.litv (Value.vdict []))⟩,
    ⟨"limit", FieldType.pyint, some (PyExpr.litv (Value.vint 100))⟩,
    ⟨"offset", FieldType.pyint, some (PyExpr.litv (Value.vint 0))⟩]⟩

def TruthQueryResult : SrcShape :=
  ⟨"TruthQueryResult",
   [⟨"queryId", FieldType.pystr, none⟩,
    ⟨"assertions", FieldType.listv FieldType.dictAny, none⟩,
    ⟨"totalCount", FieldType.pyint, none⟩,
    ⟨"hasMore", FieldType.pybool, some (PyExpr.bare "false")⟩,
    ⟨"queryTimeMs", FieldType.pyfloat, none⟩]⟩

def TruthSubscription : SrcShape :=
  ⟨"TruthSubscription",
   [⟨"id", FieldType.pystr, none⟩,
    ⟨"pattern", FieldType.dictAny, none⟩,
    ⟨"filters", FieldType.dictAny, some (PyExpr.litv (Value.vdict []))⟩,
    ⟨"webhookUrl", FieldType.opt FieldType.pystr, some (PyExpr.litv Value.vnone)⟩,
    ⟨"createdAt", FieldType.pydatetime, none⟩]⟩

def TruthCoreRequest : SrcShape :=
  ⟨"TruthCoreRequest",
   [⟨"id", FieldType.pystr, none⟩,
    ⟨"type", FieldType.litstr truthRequestTypeLits, none⟩,
    ⟨"payload", FieldType.dictAny, none⟩,
    ⟨"metadata", FieldType.dictAny, none⟩]⟩

def TruthCoreResponse : SrcShape :=
  ⟨"TruthCoreResponse",
   [⟨"requestId", FieldType.pystr, none⟩,
    ⟨"success", FieldType.pybool, none⟩,
    ⟨"data", FieldType.opt FieldType.anyv, some (PyExpr.litv Value.vnone)⟩,
    ⟨"error", FieldType.opt FieldType.dictAny, some (PyExpr.litv Value.vnone)⟩,
    ⟨"timestamp", FieldType.pydatetime, none⟩]⟩

def ConsistencyLevel : SrcShape :=
  ⟨"ConsistencyLevel", [⟨"value", FieldType.litstr consistencyLevelLits, none⟩]⟩

def TruthValue : SrcShape :=
  ⟨"TruthValue", [⟨"value", FieldType.anyv, none⟩]⟩

def HealthStatus : SrcShape :=
  ⟨"HealthStatus", [⟨"value", FieldType.litstr healthStatusLits, none⟩]⟩

def HealthCheck : SrcShape :=
  ⟨"HealthCheck",
   [⟨"service", FieldType.pystr, none⟩,
    ⟨"status", FieldType.litstr healthStatusLits, none⟩,
    ⟨"timestamp", FieldType.pydatetime, none⟩,
    ⟨"version", FieldType.pystr, none⟩,
    ⟨"uptime", FieldType.pyfloat, none⟩,
    ⟨"checks", FieldType.listv FieldType.dictAny, some (PyExpr.litv (Value.vlist []))⟩]⟩

def ServiceMetadata : SrcShape :=
  ⟨"ServiceMetadata",
   [⟨"name", FieldType.pystr, none⟩,
    ⟨"version", FieldType.pystr, none⟩,
    ⟨"contractVersion", FieldType.pystr, none⟩,
    ⟨"environment", FieldType.litstr environmentLits, some (PyExpr.litv (Value.vstr "development"))⟩,
    ⟨"startTime", FieldType.pydatetime, none⟩,
    ⟨"features", FieldType.listv FieldType.pystr, some (PyExpr.litv (Value.vlist []))⟩]⟩

def PaginatedRequest : SrcShape :=
  ⟨"PaginatedRequest",
   [⟨"limit", FieldType.pyint, some (PyExpr.litv (Value.vint 100))⟩,
    ⟨"offset", FieldType.pyint, some (PyExpr.litv (Value.vint 0))⟩,
    ⟨"cursor", FieldType.opt FieldType.pystr, some (PyExpr.litv Value.vnone)⟩,
    ⟨"sortBy", FieldType.opt FieldType.pystr, some (PyExpr.litv Value.vnone)⟩,
    ⟨"sortOrder", FieldType.litstr sortOrderLits, some (PyExpr.litv (Value.vstr "asc"))⟩]⟩

def PaginatedResponse : SrcShape :=
  ⟨"PaginatedResponse",
   [⟨"items", FieldType.listv FieldType.anyv, none⟩,
    ⟨"total", FieldType.pyint, none⟩,
    ⟨"limit", FieldType.pyint, none⟩,
    ⟨"offset", FieldType.pyint, none⟩,
    ⟨"hasMore", FieldType.pybool, none⟩,
    ⟨"nextCursor", FieldType.opt FieldType.pystr, some (PyExpr.litv Value.vnone)⟩]⟩

def ApiRequest : SrcShape :=
  ⟨"ApiRequest",
   [⟨"id", FieldType.pystr, none⟩,
    ⟨"method", FieldType.litstr httpMethodLits, none⟩,
    ⟨"path", FieldType.pystr, none⟩,
    ⟨"headers", FieldType.dictStr, some (PyExpr.litv (Value.vdict []))⟩,
    ⟨"query", FieldType.dictAny, some (PyExpr.litv (Value.vdict []))⟩,
    ⟨"body", FieldType.anyv, none⟩,
    ⟨"metadata", FieldType.dictAny, none⟩]⟩

def ApiResponse : SrcShape :=
  ⟨"ApiResponse",
   [⟨"requestId", FieldType.pystr, none⟩,
    ⟨"statusCode", FieldType.pyint, none⟩,
    ⟨"headers", FieldType.dictStr, some (PyExpr.litv (Value.vdict []))⟩,
    ⟨"body", FieldType.anyv, none⟩,
    ⟨"error", FieldType.opt FieldType.dictAny, some (PyExpr.litv Value.vnone)⟩,
    ⟨"metadata", FieldType.dictAny, none⟩]⟩

def CapabilityRegistry : SrcShape :=
  ⟨"CapabilityRegistry",
   [⟨"version", FieldType.pystr, none⟩,
    ⟨"generatedAt", FieldType.pydatetime, none⟩,
    ⟨"system", FieldType.dictAny, none⟩,
    ⟨"truthcore", FieldType.dictAny, none⟩,
    ⟨"runners", FieldType.listv FieldType.dictAny, none⟩,
    ⟨"connectors", FieldType.listv FieldType.dictAny, none⟩,
    ⟨"summary", FieldType.dictAny, none⟩]⟩

def RegisteredRunner : SrcShape :=
  ⟨"RegisteredRunner",
   [⟨"metadata", FieldType.dictAny, none⟩,
    ⟨"category", FieldType.litstr runnerCategoryLits, none⟩,
    ⟨"connectors", FieldType.listv FieldType.pystr, none⟩,
    ⟨"health", FieldType.dictAny, none⟩,
    ⟨"capabilities", FieldType.listv FieldType.dictAny, none⟩]⟩

def ConnectorConfig : SrcShape :=
  ⟨"ConnectorConfig",
   [⟨"id", FieldType.pystr, none⟩,
    ⟨"name", FieldType.pystr, none⟩,
    ⟨"type", FieldType.litstr connectorTypeLits, none⟩,
    ⟨"version", FieldType.pystr, none⟩,
    ⟨"description", FieldType.pystr, none⟩,
    ⟨"configSchema", FieldType.dictAny, none⟩,
    ⟨"required", FieldType.pybool, some (PyExpr.bare "false")⟩,
    ⟨"healthCheckable", FieldType.pybool, some (PyExpr.bare "true")⟩]⟩

def ConnectorType : SrcShape :=
  ⟨"ConnectorType", [⟨"value", FieldType.litstr connectorTypeLits, none⟩]⟩

def ConnectorInstance : SrcShape :=
  ⟨"ConnectorInstance",
   [⟨"config", FieldType.dictAny, none⟩,
    ⟨"status", FieldType.litstr connectorStatusLits, none⟩,
    ⟨"lastConnectedAt", FieldType.opt FieldType.pydatetime, some (PyExpr.litv Value.vnone)⟩,
    ⟨"lastErrorAt", FieldType.opt FieldType.pydatetime, some (PyExpr.litv Value.vnone)⟩,
    ⟨"errorMessage", FieldType.opt FieldType.pystr, some (PyExpr.litv Value.vnone)⟩,
    ⟨"metadata", FieldType.dictAny, some (PyExpr.litv (Value.vdict []))⟩]⟩

def RunnerCategory : SrcShape :=
  ⟨"RunnerCategory", [⟨"value", FieldType.litstr runnerCategoryLits, none⟩]⟩

def RegistryQuery : SrcShape :=
  ⟨"RegistryQuery",
   [⟨"category", FieldType.opt (FieldType.litstr runnerCategoryLits), some (PyExpr.litv Value.vnone)⟩,
    ⟨"connectorType", FieldType.opt (FieldType.litstr connectorTypeLits), some (PyExpr.litv Value.vnone)⟩,
    ⟨"healthStatus", FieldType.litstr registryHealthLits, some (PyExpr.litv (Value.vstr "any"))⟩,
    ⟨"includeCapabilities", FieldType.pybool, some (PyExpr.bare "true")⟩,
    ⟨"includeConnectors", FieldType.pybool, some (PyExpr.bare "true")⟩]⟩

def RegistryDiff : SrcShape :=
  ⟨"RegistryDiff",
   [⟨"added", FieldType.listv FieldType.dictAny, none⟩,
    ⟨"removed", FieldType.listv FieldType.dictAny, none⟩,
    ⟨"modified", FieldType.listv FieldType.dictAny, none⟩,
    ⟨"timestamp", FieldType.pydatetime, none⟩,
    ⟨"previousChecksum", FieldType.pystr, none⟩,
    ⟨"currentChecksum", FieldType.pystr, none⟩]⟩

def MarketplaceIndex : SrcShape :=
  ⟨"MarketplaceIndex",
   [⟨"version", FieldType.pystr, none⟩,
    ⟨"generatedAt", FieldType.pydatetime, none⟩,
    ⟨"schema", FieldType.dictAny, none⟩,
    ⟨"system", FieldType.dictAny, none⟩,
    ⟨"stats", FieldType.dictAny, none⟩,
    ⟨"runners", FieldType.listv FieldType.dictAny, none⟩,
    ⟨"connectors", FieldType.listv FieldType.dictAny, none⟩,
    ⟨"filters", FieldType.dictAny, none⟩]⟩

def MarketplaceRunner : SrcShape :=
  ⟨"MarketplaceRunner",
   [⟨"id", FieldType.pystr, none⟩,
    ⟨"metadata", FieldType.dictAny, none⟩,
    ⟨"category", FieldType.litstr runnerCategoryLits, none⟩,
    ⟨"description", FieldType.pystr, none⟩,
    ⟨"longDescription", FieldType.opt FieldType.pystr, some (PyExpr.litv Value.vnone)⟩,
    ⟨"author", FieldType.dictAny, none⟩,
    ⟨"repository", FieldType.opt FieldType.dictAny, some (PyExpr.litv Value.vnone)⟩,
    ⟨"documentation", FieldType.dictAny, some (PyExpr.litv (Value.vdict []))⟩,
    ⟨"license", FieldType.pystr, none⟩,
    ⟨"keywords", FieldType.listv FieldType.pystr, some (PyExpr.litv (Value.vlist []))⟩,
    ⟨"capabilities", FieldType.listv FieldType.dictAny, none⟩,
    ⟨"compatibility", FieldType.dictAny, none⟩,
    ⟨"trustSignals", FieldType.dictAny, none⟩,
    ⟨"deprecation", FieldType.dictAny, some (PyExpr.dictE [("isDeprecated", PyAtom.name "false")])⟩,
    ⟨"status", FieldType.litstr marketplaceItemStatusLits, some (PyExpr.litv (Value.vstr "active"))⟩,
    ⟨"publishedAt", FieldType.pydatetime, none⟩,
    ⟨"updatedAt", FieldType.pydatetime, none⟩,
    ⟨"versionHistory", FieldType.listv FieldType.dictAny, some (PyExpr.litv (Value.vlist []))⟩,
    ⟨"installation", FieldType.dictAny, some (PyExpr.litv (Value.vdict []))⟩]⟩

def MarketplaceConnector : SrcShape :=
  ⟨"MarketplaceConnector",
   [⟨"id", FieldType.pystr, none⟩,
    ⟨"config", FieldType.dictAny, none⟩,
    ⟨"description", FieldType.pystr, none⟩,
    ⟨"longDescription", FieldType.opt FieldType.pystr, some (PyExpr.litv Value.vnone)⟩,
    ⟨"author", FieldType.dictAny, none⟩,
    ⟨"repository", FieldType.opt FieldType.dictAny, some (PyExpr.litv Value.vnone)⟩,
    ⟨"documentation", FieldType.dictAny, some (PyExpr.litv (Value.vdict []))⟩,
    ⟨"license", FieldType.pystr, none⟩,
    ⟨"keywords", FieldType.listv FieldType.pystr, some (PyExpr.litv (Value.vlist []))⟩,
    ⟨"inputSchema", FieldType.dictAny, none⟩,
    ⟨"outputSchema", FieldType.dictAny, none⟩,
    ⟨"compatibility", FieldType.dictAny, none⟩,
    ⟨"trustSignals", FieldType.dictAny, none⟩,
    ⟨"deprecation", FieldType.dictAny, some (PyExpr.dictE [("isDeprecated", PyAtom.name "false")])⟩,
    ⟨"status", FieldType.litstr marketplaceItemStatusLits, some (PyExpr.litv (Value.vstr "active"))⟩,
    ⟨"publishedAt", FieldType.pydatetime, none⟩,
    ⟨"updatedAt", FieldType.pydatetime, none⟩,
    ⟨"versionHistory", FieldType.listv FieldType.dictAny, some (PyExpr.litv (Value.vlist []))⟩,
    ⟨"installation", FieldType.dictAny, some (PyExpr.litv (Value.vdict []))⟩]⟩

def MarketplaceQuery : SrcShape :=
  ⟨"MarketplaceQuery",
   [⟨"type", FieldType.litstr marketplaceQueryTypeLits, some (PyExpr.litv (Value.vstr "all"))⟩,
    ⟨"category", FieldType.opt FieldType.pystr, some (PyExpr.litv Value.vnone)⟩,
    ⟨"connectorType", FieldType.opt FieldType.pystr, some (PyExpr.litv Value.vnone)⟩,
    ⟨"status", FieldType.litstr marketplaceQueryStatusLits, some (PyExpr.litv (Value.vstr "active"))⟩,
    ⟨"trustLevel", FieldType.litstr trustLevelLits, some (PyExpr.litv (Value.vstr "all"))⟩,
    ⟨"search", FieldType.opt FieldType.pystr, some (PyExpr.litv Value.vnone)⟩,
    ⟨"compatibilityVersion", FieldType.opt FieldType.dictAny, some (PyExpr.litv Value.vnone)⟩,
    ⟨"author", FieldType.opt FieldType.pystr, some (PyExpr.litv Value.vnone)⟩,
    ⟨"keywords", FieldType.listv FieldType.pystr, some (PyExpr.litv (Value.vlist []))⟩,
    ⟨"sortBy", FieldType.litstr marketplaceSortByLits, some (PyExpr.litv (Value.vstr "relevance"))⟩,
    ⟨"sortOrder", FieldType.litstr sortOrderLits, some (PyExpr.litv (Value.vstr "desc"))⟩,
    ⟨"limit", FieldType.pyfloat, some (PyExpr.litv (Value.vint 20))⟩,
    ⟨"offset", FieldType.pyfloat, some (PyExpr.litv (Value.vint 0))⟩]⟩

def MarketplaceQueryResult : SrcShape :=
  ⟨"MarketplaceQueryResult",
   [⟨"query", FieldType.dictAny, none⟩,
    ⟨"total", FieldType.pyfloat, none⟩,
    ⟨"hasMore", FieldType.pybool, none⟩,
    ⟨"items", FieldType.listv FieldType.dictAny, none⟩,
    ⟨"facets", FieldType.dictAny, none⟩]⟩

def MarketplaceTrustSignals : SrcShape :=
  ⟨"MarketplaceTrustSignals",
   [⟨"overallTrust", FieldType.litstr trustStatusLits, none⟩,
    ⟨"contractTestStatus", FieldType.litstr contractTestStatusLits, none⟩,
    ⟨"lastContractTestAt", FieldType.opt FieldType.pydatetime, some (PyExpr.litv Value.vnone)⟩,
    ⟨"lastVerifiedVersion", FieldType.opt FieldType.pystr, some (PyExpr.litv Value.vnone)⟩,
    ⟨"verificationMethod", FieldType.litstr verificationMethodLits, none⟩,
    ⟨"securityScanStatus", FieldType.litstr securityScanStatusLits, none⟩,
    ⟨"lastSecurityScanAt", FieldType.opt FieldType.pydatetime, some (PyExpr.litv Value.vnone)⟩,
    ⟨"securityScanDetails", FieldType.dictAny, some (PyExpr.litv (Value.vdict []))⟩,
    ⟨"codeQualityScore", FieldType.opt FieldType.pyfloat, some (PyExpr.litv Value.vnone)⟩,
    ⟨"maintainerReputation", FieldType.litstr maintainerReputationLits, some (PyExpr.litv (Value.vstr "unknown"))⟩,
    ⟨"downloadCount", FieldType.pyfloat, some (PyExpr.litv (Value.vint 0))⟩,
    ⟨"rating", FieldType.dictAny, some (PyExpr.litv (Value.vdict []))⟩]⟩

def TrustStatus : SrcShape :=
  ⟨"TrustStatus", [⟨"value", FieldType.litstr trustStatusLits, none⟩]⟩

def SecurityScanStatus : SrcShape :=
  ⟨"SecurityScanStatus", [⟨"value", FieldType.litstr securityScanStatusLits, none⟩]⟩

def ContractTestStatus : SrcShape :=
  ⟨"ContractTestStatus", [⟨"value", FieldType.litstr contractTestStatusLits, none⟩]⟩

def VerificationMethod : SrcShape :=
  ⟨"VerificationMethod", [⟨"value", FieldType.litstr verificationMethodLits, none⟩]⟩

/-- The class bodies of `models.py` in source order: importing the
module executes them one after the other. -/
def modelsSource : List SrcShape :=
  [ErrorSeverity, ErrorCategory, RetryPolicy, ErrorDetail, ErrorEnvelope,
   ContractVersion, ContractRange, JobId, JobStatus, JobPriority,
   JobMetadata, JobPayload, JobRequest, JobResult, JobResponse,
   RunnerCapability, RunnerMetadata, RunnerRegistrationRequest,
   RunnerRegistrationResponse, RunnerHeartbeat, ModuleManifest,
   RunnerExecutionRequest, RunnerExecutionResponse, TruthAssertion,
   TruthQuery, TruthQueryResult, TruthSubscription, TruthCoreRequest,
   TruthCoreResponse, ConsistencyLevel, TruthValue, HealthStatus,
   HealthCheck, ServiceMetadata, PaginatedRequest, PaginatedResponse,
   ApiRequest, ApiResponse, CapabilityRegistry, RegisteredRunner,
   ConnectorConfig, ConnectorType, ConnectorInstance, RunnerCategory,
   RegistryQuery, RegistryDiff, MarketplaceIndex, MarketplaceRunner,
   MarketplaceConnector, MarketplaceQuery, MarketplaceQueryResult,
   MarketplaceTrustSignals, TrustStatus, SecurityScanStatus,
   ContractTestStatus, VerificationMethod]

/-- Executing a list of class bodies in order, failing as soon as one
raises. -/
def elabShapes : List SrcShape → Option (List Shape)
  | [] => some []
  | s :: ss =>
      match elabShape s, elabShapes ss with
      | some t, some ts => some (t :: ts)
      | _, _ => none

/-- Importing `controlplane_sdk.models`: every class body must execute
without raising. -/
def importModels : Option (List Shape) :=
  elabShapes modelsSource

/-! ### `schemas.py`: the schema registry -/

/-- `SCHEMA_REGISTRY`: the name-to-class dictionary of `schemas.py`,
in source order. -/
def SCHEMA_REGISTRY : List (String × SrcShape) :=
  [("RetryPolicy", RetryPolicy),
   ("ErrorDetail", ErrorDetail),
   ("ErrorEnvelope", ErrorEnvelope),
   ("ContractVersion", ContractVersion),
   ("ContractRange", ContractRange),
   ("JobMetadata", JobMetadata),
   ("JobPayload", JobPayload),
   ("JobRequest", JobRequest),
   ("JobResult", JobResult),
   ("JobResponse", JobResponse),
   ("RunnerCapability", RunnerCapability),
   ("RunnerMetadata", RunnerMetadata),
   ("RunnerRegistrationRequest", RunnerRegistrationRequest),
   ("RunnerRegistrationResponse", RunnerRegistrationResponse),
   ("RunnerHeartbeat", RunnerHeartbeat),
   ("ModuleManifest", ModuleManifest),
   ("RunnerExecutionRequest", RunnerExecutionRequest),
   ("RunnerExecutionResponse", RunnerExecutionResponse),
   ("TruthAssertion", TruthAssertion),
   ("TruthQuery", TruthQuery),
   ("TruthQueryResult", TruthQueryResult),
   ("TruthSubscription", TruthSubscription),
   ("TruthCoreRequest", TruthCoreRequest),
   ("TruthCoreResponse", TruthCoreResponse),
   ("HealthCheck", HealthCheck),
   ("ServiceMetadata", ServiceMetadata),
   ("PaginatedRequest", PaginatedRequest),
   ("PaginatedResponse", PaginatedResponse),
   ("ApiRequest", ApiRequest),
   ("ApiResponse", ApiResponse),
   ("CapabilityRegistry", CapabilityRegistry),
   ("RegisteredRunner", RegisteredRunner),
   ("ConnectorConfig", ConnectorConfig),
   ("ConnectorInstance", ConnectorInstance),
   ("RegistryQuery", RegistryQuery),
   ("RegistryDiff", RegistryDiff),
   ("MarketplaceIndex", MarketplaceIndex),
   ("MarketplaceRunner", MarketplaceRunner),
   ("MarketplaceConnector", MarketplaceConnector),
   ("MarketplaceQuery", MarketplaceQuery),
   ("MarketplaceQueryResult", MarketplaceQueryResult),
   ("MarketplaceTrustSignals", MarketplaceTrustSignals)]

/-- `schemas.get_schema(name)`: the registered class, or a `KeyError`
with message `Unknown schema: <name>` when the key is absent
(membership test on the dictionary, exact match only). -/
def get_schema (name : String) : Except String SrcShape :=
  match SCHEMA_REGISTRY.find? (fun kv => kv.1 == name) with
  | some kv => Except.ok kv.2
  | none => Except.error ("Unknown schema: " ++ name)

/-- `schemas.list_schemas()`: the keys of the registry dictionary. -/
def list_schemas : List String :=
  SCHEMA_REGISTRY.map (fun kv => kv.1)

/-! ### The elaborated shapes the concrete scenarios validate against -/

/-- The `JobRequest` class after its body has executed (all its default
expressions are proper literals, so elaboration succeeds;
`jobRequestElab` below records this). -/
def JobRequestModel : Shape :=
  (elabShape JobRequest).getD ⟨"JobRequest", []⟩

/-- The `JobResponse` class after its body has executed. -/
def JobResponseModel : Shape :=
  (elabShape JobResponse).getD ⟨"JobResponse", []⟩

/-! ### `client.py`: the client wrapper -/

/-- `client.ClientConfig`: base address, optional credential token and
timeout. -/
structure ClientConfig where
  base_url : String
  api_key : Option String
  timeout : Rat

/-- The attributes of the `ContractVersion` model instance the client
constructs (`major=1, minor=0, patch=0`). -/
structure ContractVersionInst where
  major : Int
  minor : Int
  patch : Int

/-- The instance built in `ControlPlaneClient.__init__`. -/
def clientContractVersion : ContractVersionInst :=
  ⟨1, 0, 0⟩

/-- Python truthiness of an `Optional[str]`: `None` and the empty
string are falsy. -/
def pyTruthy : Option String → Bool
  | none => false
  | some s => !s.isEmpty

namespace ControlPlaneClient

/-- `ControlPlaneClient._serialize_version(version)`: the f-string
joining major, minor and patch with dots. -/
def serialize_version (v : ContractVersionInst) : String :=
  toString v.major ++ "." ++ toString v.minor ++ "." ++ toString v.patch

/-- `ControlPlaneClient._default_headers()`: content type and contract
version always; a bearer authorization header exactly when the
configured `api_key` is truthy. -/
def default_headers (cfg : ClientConfig) (cv : ContractVersionInst) : List (String × String) :=
  let headers := [("Content-Type", "application/json"),
                  ("X-Contract-Version", serialize_version cv)]
  match cfg.api_key with
  | some key =>
      if key.isEmpty then headers
      else headers ++ [("Authorization", "Bearer " ++ key)]
  | none => headers

/-- `ControlPlaneClient.validate(model_cls, data)`: returns
`model_cls.model_validate(data)`. -/
def validate (S : Shape) (d : List (String × Value)) : Except (List VError) (List (String × Value)) :=
  model_validate S d

/-- `ControlPlaneClient.safe_validate(model_cls, data)`: calls the
client `validate` inside `try`, catching `ValidationError`. -/
def safe_validate (S : Shape) (d : List (String × Value)) : SafeResult :=
  match ControlPlaneClient.validate S d with
  | Except.ok inst => SafeResult.ok inst
  | Except.error e => SafeResult.failed e

end ControlPlaneClient

/-- A decoded HTTP exchange as the third-party transport reports it:
status code and decoded JSON body. -/
structure HttpResponse where
  status_code : Int
  body : List (String × Value)

/-- Modelled from the spec: `httpx.Response.raise_for_status` of the
external transport library raises `HTTPStatusError` exactly on a
non-success (non-2xx) status. -/
def is_success (code : Int) : Bool :=
  decide (200 ≤ code) && decide (code < 300)

/-- `ControlPlaneClient.request(method, path, ...)`: performs exactly
one transport call, raises on a non-success status via
`raise_for_status`, and otherwise returns the decoded body unchanged
(no schema validation, no retry).  The transport is passed as a
function from method and path to the response it produces. -/
def request (transport : String → String → HttpResponse) (method path : String) :
    Except Int (List (String × Value)) :=
  let response := transport method path
  if is_success response.status_code then Except.ok response.body
  else Except.error response.status_code

/-! ### Key restriction (for the unrecognized-key policy) -/

/-- The field names a shape declares. -/
def declaredNames (S : Shape) : List String :=
  S.fields.map (fun f => f.name)

/-- A mapping restricted to a given key set. -/
def restrictKeys (names : List String) (d : List (String × Value)) : List (String × Value) :=
  d.filter (fun kv => names.contains kv.1)

/-- A mapping restricted to the keys a shape declares. -/
def restrict (S : Shape) (d : List (String × Value)) : List (String × Value) :=
  restrictKeys (declaredNames S) d

/-! ### Concrete scenario data from §8 of the specification -/

/-- The mapping of the concrete `JobRequest` scenario. -/
def jobRequestData : List (String × Value) :=
  [("id", Value.vstr "j1"),
   ("type", Value.vstr "ingest"),
   ("payload", Value.vdict [("type", Value.vstr "x"), ("data", Value.vdict [])]),
   ("metadata", Value.vdict
     [("source", Value.vstr "api"),
      ("createdAt", Value.vstr "2024-01-01T00:00:00Z")])]

/-- The same mapping with `payload` omitted. -/
def jobRequestDataNoPayload : List (String × Value) :=
  [("id", Value.vstr "j1"),
   ("type", Value.vstr "ingest"),
   ("metadata", Value.vdict
     [("source", Value.vstr "api"),
      ("createdAt", Value.vstr "2024-01-01T00:00:00Z")])]

/-- The instance the scenario produces: every declared field bound, the
declared defaults substituted for the absent optional fields. -/
def jobRequestInstance : List (String × Value) :=
  [("id", Value.vstr "j1"),
   ("type", Value.vstr "ingest"),
   ("priority", Value.vint 50),
   ("payload", Value.vdict [("type", Value.vstr "x"), ("data", Value.vdict [])]),
   ("metadata", Value.vdict
     [("source", Value.vstr "api"),
      ("createdAt", Value.vstr "2024-01-01T00:00:00Z")]),
   ("retryPolicy", Value.vdict
     [("maxRetries", Value.vint 3),
      ("backoffMs", Value.vint 1000),
      ("maxBackoffMs", Value.vint 30000),
      ("backoffMultiplier", Value.vint 2),
      ("retryableCategories", Value.vlist []),
      ("nonRetryableCategories", Value.vlist [])]),
   ("timeoutMs", Value.vint 30000)]

/-- A `JobResponse` mapping whose `status` is outside the literal set. -/
def jobResponseBadStatus : List (String × Value) :=
  [("id", Value.vstr "j1"),
   ("status", Value.vstr "sleeping"),
   ("request", Value.vdict []),
   ("updatedAt", Value.vstr "2024-01-01T00:00:00Z")]

/-! ## Helper lemmas -/

theorem getKey_cons (kv : String × Value) (d : List (String × Value)) (k : String) :
    getKey (kv :: d) k = if kv.1 == k then some kv.2 else getKey d k := by
  unfold getKey
  rw [List.find?_cons]
  cases h : (kv.1 == k) with
  | true => simp [h]
  | false => simp [h]

theorem restrictKeys_cons (names : List String) (kv : String × Value)
    (d : List (String × Value)) :
    restrictKeys names (kv :: d) =
      if names.contains kv.1 then kv :: restrictKeys names d
      else restrictKeys names d := by
  simp [restrictKeys, List.filter_cons]

theorem getKey_restrictKeys (names : List String) (d : List (String × Value))
    (k : String) (hk : names.contains k = true) :
    getKey (restrictKeys names d) k = getKey d k := by
  induction d with
  | nil => rfl
  | cons kv d ih =>
      rw [restrictKeys_cons]
      by_cases hmem : names.contains kv.1 = true
      · rw [if_pos hmem, getKey_cons, getKey_cons]
        cases heq : (kv.1 == k) with
        | true => simp
        | false => simpa using ih
      · rw [if_neg hmem, getKey_cons]
        have hne : (kv.1 == k) = false := by
          cases hb : (kv.1 == k) with
          | false => rfl
          | true =>
              exfalso
              have hkv : kv.1 = k := by simpa using hb
              rw [hkv] at hmem
              exact hmem hk
        rw [hne]
        simpa using ih

theorem checkField_restrictKeys (names : List String) (d : List (String × Value))
    (f : FieldSpec) (hf : names.contains f.name = true) :
    checkField (restrictKeys names d) f = checkField d f := by
  unfold checkField
  rw [getKey_restrictKeys names d f.name hf]

theorem mem_collectErrs_of_mem {rs : List (Except VError (String × Value))}
    {e : VError} (h : Except.error e ∈ rs) : e ∈ collectErrs rs := by
  unfold collectErrs
  exact List.mem_filterMap.mpr ⟨Except.error e, h, rfl⟩

theorem validate_error_of_checkField {S : Shape} {d : List (String × Value)}
    {f : FieldSpec} {e : VError} (hf : f ∈ S.fields)
    (he : checkField d f = Except.error e) :
    ∃ errs, validate S d = Except.error errs ∧ e ∈ errs := by
  have hmem : Except.error e ∈ S.fields.map (checkField d) := by
    have hm := List.mem_map_of_mem (checkField d) hf
    rwa [he] at hm
  have hcoll : e ∈ collectErrs (S.fields.map (checkField d)) :=
    mem_collectErrs_of_mem hmem
  show ∃ errs, model_validate S d = Except.error errs ∧ e ∈ errs
  unfold model_validate
  cases hC : collectErrs (S.fields.map (checkField d)) with
  | nil =>
      rw [hC] at hcoll
      exact absurd hcoll (List.not_mem_nil e)
  | cons a as =>
      rw [hC] at hcoll
      refine ⟨a :: as, ?_, hcoll⟩
      show (match collectErrs (S.fields.map (checkField d)) with
            | [] => Except.ok (collectOks (S.fields.map (checkField d)))
            | e :: es => Except.error (e :: es)) = Except.error (a :: as)
      rw [hC]

theorem contains_of_mem {l : List String} {a : String} (h : a ∈ l) :
    l.contains a = true := by
  simpa using h

/-! ## Claim theorems -/

/-- C1: for every model shape and every input mapping, `safe_validate`
never raises and always returns a tagged result — success carrying the
validated instance, or failure carrying the validation error — and its
success flag is false exactly when `validate` fails on the same input.
(Totality is by construction: the embedded `safe_validate` is a total
function wrapping `validate`, whose only failure mode is the
`ValidationError` value that the `except ValidationError` clause of the
source catches.) -/
theorem safe_validate_spec (S : Shape) (d : List (String × Value)) :
    ((∃ inst, validate S d = Except.ok inst ∧
        safe_validate S d = SafeResult.ok inst) ∨
     (∃ e, validate S d = Except.error e ∧
        safe_validate S d = SafeResult.failed e)) ∧
    (SafeResult.success (safe_validate S d) = false ↔
       ∃ e, validate S d = Except.error e) := by
  unfold safe_validate
  cases hval : validate S d with
  | ok inst =>
      refine ⟨Or.inl ⟨inst, rfl, rfl⟩, ?_⟩
      simp [SafeResult.success]
  | error e =>
      refine ⟨Or.inr ⟨e, rfl, rfl⟩, ?_⟩
      simp only [SafeResult.success, true_iff]
      exact ⟨e, rfl⟩

theorem safe_validate_spec_witness :
    SafeResult.success (safe_validate JobRequestModel jobRequestDataNoPayload) = false :=
  (safe_validate_spec JobRequestModel jobRequestDataNoPayload).2.mpr
    ⟨[⟨["payload"], "Field required"⟩], rfl⟩

/-- C2: `get_schema "JobRequest"` followed by `validate` on the §8
scenario mapping succeeds, and the resulting instance carries the
declared defaults `priority == 50` and `timeoutMs == 30000` for the
absent optional fields. -/
theorem jobRequest_defaults_scenario :
    get_schema "JobRequest" = Except.ok JobRequest ∧
    elabShape JobRequest = some JobRequestModel ∧
    validate JobRequestModel jobRequestData = Except.ok jobRequestInstance ∧
    getKey jobRequestInstance "priority" = some (Value.vint 50) ∧
    getKey jobRequestInstance "timeoutMs" = some (Value.vint 30000) :=
  ⟨rfl, rfl, rfl, rfl, rfl⟩

/-- C3: the claim that every declared default denotes a well-defined
value fails on the code: the six boolean defaults of
`ErrorEnvelope.retryable`, `TruthQueryResult.hasMore`,
`ConnectorConfig.required`, `ConnectorConfig.healthCheckable`,
`RegistryQuery.includeCapabilities` and
`RegistryQuery.includeConnectors` are written `false` / `true` — bare
names that Python does not define — so evaluating them raises
`NameError` and the class bodies (hence the import of
`controlplane_sdk.models`) fail to execute. -/
theorem boolean_defaults_not_well_formed :
    resolveName "false" = none ∧
    resolveName "true" = none ∧
    elabShape ErrorEnvelope = none ∧
    elabShape TruthQueryResult = none ∧
    elabShape ConnectorConfig = none ∧
    elabShape RegistryQuery = none ∧
    importModels = none :=
  ⟨rfl, rfl, rfl, rfl, rfl, rfl, rfl⟩

/-- C4: for every shape and every mapping missing a required field,
`validate` fails and the validation error lists a field-level failure
whose path is that field's name. -/
theorem validate_missing_required (S : Shape) (d : List (String × Value))
    (f : FieldSpec) (hf : f ∈ S.fields) (hreq : f.dflt = none)
    (habs : getKey d f.name = none) :
    ∃ errs, validate S d = Except.error errs ∧
      ∃ e, e ∈ errs ∧ e.path = [f.name] := by
  have hc : checkField d f = Except.error ⟨[f.name], "Field required"⟩ := by
    unfold checkField
    rw [habs, hreq]
  obtain ⟨errs, hval, hmem⟩ := validate_error_of_checkField hf hc
  exact ⟨errs, hval, ⟨_, hmem, rfl⟩⟩

theorem validate_missing_required_witness :
    ∃ errs, validate JobRequestModel jobRequestDataNoPayload = Except.error errs ∧
      ∃ e, e ∈ errs ∧ e.path = ["payload"] :=
  validate_missing_required JobRequestModel jobRequestDataNoPayload
    ⟨"payload", FieldType.dictAny, none⟩
    (List.mem_cons_of_mem _ (List.mem_cons_of_mem _ (List.mem_cons_of_mem _
      (List.mem_cons_self _ _))))
    rfl rfl

/-- C5: for every name in `list_schemas()`, `get_schema` returns the
shape registered under that name, and for every other string it fails
with the schema-not-found error (exact-match lookup only). -/
theorem registry_round_trip (name : String) :
    (name ∈ list_schemas →
       ∃ S, get_schema name = Except.ok S ∧ (name, S) ∈ SCHEMA_REGISTRY) ∧
    (name ∉ list_schemas →
       get_schema name = Except.error ("Unknown schema: " ++ name)) := by
  constructor
  · intro hmem
    obtain ⟨kv, hkv, hname⟩ := List.mem_map.mp hmem
    have hsome : (SCHEMA_REGISTRY.find? (fun kv => kv.1 == name)).isSome := by
      apply List.find?_isSome.mpr
      exact ⟨kv, hkv, by simp [hname]⟩
    obtain ⟨kv2, hfind⟩ := Option.isSome_iff_exists.mp hsome
    have hp := List.find?_some hfind
    have hmem2 : kv2 ∈ SCHEMA_REGISTRY := List.mem_of_find?_eq_some hfind
    have heq : kv2.1 = name := by simpa using hp
    refine ⟨kv2.2, ?_, ?_⟩
    · unfold get_schema
      rw [hfind]
    · rw [← heq]
      exact hmem2
  · intro hnot
    have hfind : SCHEMA_REGISTRY.find? (fun kv => kv.1 == name) = none := by
      apply List.find?_eq_none.mpr
      intro kv hkv
      simp only [beq_iff_eq]
      intro heq
      apply hnot
      rw [← heq]
      exact List.mem_map_of_mem (fun kv => kv.1) hkv
    unfold get_schema
    rw [hfind]

theorem registry_round_trip_witness :
    (∃ S, get_schema "JobRequest" = Except.ok S ∧
       ("JobRequest", S) ∈ SCHEMA_REGISTRY) ∧
    get_schema "NoSuchSchema" = Except.error ("Unknown schema: " ++ "NoSuchSchema") :=
  ⟨(registry_round_trip "JobRequest").1 (by decide),
   (registry_round_trip "NoSuchSchema").2 (by decide)⟩

/-- C7: keys that a shape does not declare are ignored: `validate`
coincides with `validate` on the mapping restricted to the declared
keys, and consing an unrecognized key onto a mapping leaves that
restriction unchanged. -/
theorem validate_ignores_unrecognized_keys (S : Shape) (d : List (String × Value)) :
    validate S d = validate S (restrict S d) ∧
    ∀ k v, (declaredNames S).contains k = false →
      restrict S ((k, v) :: d) = restrict S d := by
  constructor
  · show model_validate S d = model_validate S (restrict S d)
    unfold model_validate restrict
    have hmap : S.fields.map (checkField (restrictKeys (declaredNames S) d)) =
        S.fields.map (checkField d) := by
      apply List.map_congr_left
      intro f hf
      apply checkField_restrictKeys
      apply contains_of_mem
      exact List.mem_map_of_mem (fun f => f.name) hf
    rw [hmap]
  · intro k v hk
    unfold restrict
    rw [restrictKeys_cons]
    have hc : (declaredNames S).contains (k, v).1 = false := hk
    rw [hc]
    simp

theorem validate_ignores_unrecognized_keys_witness :
    validate JobRequestModel (("unknownKey", Value.vint 1) :: jobRequestData) =
      validate JobRequestModel
        (restrict JobRequestModel (("unknownKey", Value.vint 1) :: jobRequestData)) ∧
    restrict JobRequestModel (("unknownKey", Value.vint 1) :: jobRequestData) =
      restrict JobRequestModel jobRequestData :=
  ⟨(validate_ignores_unrecognized_keys JobRequestModel
      (("unknownKey", Value.vint 1) :: jobRequestData)).1,
   (validate_ignores_unrecognized_keys JobRequestModel jobRequestData).2
     "unknownKey" (Value.vint 1) (by decide)⟩

/-- C8: for every shape and mapping in which an enumerated-string
field's value lies outside its literal set, validation fails citing
that field; and a job status string passes the check of the job status
literal type exactly when it is one of pending, queued, running,
completed, failed, cancelled, retrying. -/
theorem validate_enum_outside_set (S : Shape) (d : List (String × Value))
    (f : FieldSpec) (cs : List String) (s : String) (hf : f ∈ S.fields)
    (ht : f.ftype = FieldType.litstr cs)
    (hv : getKey d f.name = some (Value.vstr s)) (hs : cs.contains s = false) :
    (∃ errs, validate S d = Except.error errs ∧
       ∃ e, e ∈ errs ∧ e.path = [f.name]) ∧
    (∀ q : String,
       typeCheck (FieldType.litstr jobStatusLits) (Value.vstr q) = true ↔
         q ∈ jobStatusLits) := by
  constructor
  · have hc : checkField d f = Except.error ⟨[f.name], "type error"⟩ := by
      unfold checkField
      rw [hv, ht]
      show (if typeCheck (FieldType.litstr cs) (Value.vstr s) = true
            then Except.ok (f.name, Value.vstr s)
            else Except.error (⟨[f.name], "type error"⟩ : VError)) =
          Except.error (⟨[f.name], "type error"⟩ : VError)
      have htc : typeCheck (FieldType.litstr cs) (Value.vstr s) = cs.contains s := rfl
      rw [htc, hs]
      simp
    obtain ⟨errs, hval, hmem⟩ := validate_error_of_checkField hf hc
    exact ⟨errs, hval, ⟨_, hmem, rfl⟩⟩
  · intro q
    simp [typeCheck]

theorem validate_enum_outside_set_witness :
    ∃ errs, validate JobResponseModel jobResponseBadStatus = Except.error errs ∧
      ∃ e, e ∈ errs ∧ e.path = ["status"] :=
  (validate_enum_outside_set JobResponseModel jobResponseBadStatus
    ⟨"status", FieldType.litstr jobStatusLits, none⟩ jobStatusLits "sleeping"
    (List.mem_cons_of_mem _ (List.mem_cons_self _ _))
    rfl rfl rfl).1

/-- C6: `_default_headers` is a pure function of the configuration: it
always carries the content-type marker and the `X-Contract-Version`
header formatted as major.minor.patch (the client's fixed version
serializes to `1.0.0`); with a falsy credential token it produces no
authorization header, and with a non-empty token it produces exactly
one `Authorization: Bearer <token>` header. -/
theorem default_headers_spec (cfg : ClientConfig) :
    (("Content-Type", "application/json") ∈
       ControlPlaneClient.default_headers cfg clientContractVersion) ∧
    (∀ cv : ContractVersionInst,
       ("X-Contract-Version", ControlPlaneClient.serialize_version cv) ∈
         ControlPlaneClient.default_headers cfg cv) ∧
    ControlPlaneClient.serialize_version clientContractVersion = "1.0.0" ∧
    (pyTruthy cfg.api_key = false →
       (ControlPlaneClient.default_headers cfg clientContractVersion).filter
         (fun h => h.1 == "Authorization") = []) ∧
    (∀ key : String, cfg.api_key = some key → key ≠ "" →
       (ControlPlaneClient.default_headers cfg clientContractVersion).filter
         (fun h => h.1 == "Authorization") =
           [("Authorization", "Bearer " ++ key)]) := by
  refine ⟨?_, ?_, rfl, ?_, ?_⟩
  · cases h : cfg.api_key with
    | none => simp [ControlPlaneClient.default_headers, h]
    | some key =>
        by_cases hk : key.isEmpty
        · simp [ControlPlaneClient.default_headers, h, hk]
        · simp [ControlPlaneClient.default_headers, h, hk]
  · intro cv
    cases h : cfg.api_key with
    | none => simp [ControlPlaneClient.default_headers, h]
    | some key =>
        by_cases hk : key.isEmpty
        · simp [ControlPlaneClient.default_headers, h, hk]
        · simp [ControlPlaneClient.default_headers, h, hk]
  · intro hfalsy
    cases h : cfg.api_key with
    | none => simp [ControlPlaneClient.default_headers, h]
    | some key =>
        rw [h] at hfalsy
        have hk : key.isEmpty = true := by
          cases hb : key.isEmpty with
          | true => rfl
          | false =>
              exfalso
              simp only [pyTruthy, hb] at hfalsy
              exact absurd hfalsy (by simp)
        simp [ControlPlaneClient.default_headers, h, hk]
  · intro key hkey hne
    have hk : key.isEmpty = false := by
      cases hb : key.isEmpty with
      | false => rfl
      | true => exact absurd ((String.isEmpty_iff key).mp hb) hne
    simp [ControlPlaneClient.default_headers, hkey, hk]

theorem default_headers_spec_witness :
    ((ControlPlaneClient.default_headers ⟨"http://cp", some "tok", 30⟩
        clientContractVersion).filter (fun h => h.1 == "Authorization") =
      [("Authorization", "Bearer " ++ "tok")]) ∧
    ((ControlPlaneClient.default_headers ⟨"http://cp", none, 30⟩
        clientContractVersion).filter (fun h => h.1 == "Authorization") = []) :=
  ⟨(default_headers_spec ⟨"http://cp", some "tok", 30⟩).2.2.2.2 "tok" rfl
     (by decide),
   (default_headers_spec ⟨"http://cp", none, 30⟩).2.2.2.1 rfl⟩

/-- C9: `request` makes exactly one transport call and performs no
schema validation: on a success status it returns the decoded body
unchanged, and on a non-success status it fails with the transport
error carrying that status. -/
theorem request_spec (transport : String → String → HttpResponse)
    (method path : String) :
    (is_success (transport method path).status_code = true →
       request transport method path =
         Except.ok (transport method path).body) ∧
    (is_success (transport method path).status_code = false →
       request transport method path =
         Except.error (transport method path).status_code) := by
  constructor
  · intro h
    unfold request
    simp [h]
  · intro h
    unfold request
    simp [h]

theorem request_spec_witness :
    request (fun _ _ => ⟨200, [("ok", Value.vbool true)]⟩) "GET" "/health" =
      Except.ok [("ok", Value.vbool true)] ∧
    request (fun _ _ => ⟨404, []⟩) "GET" "/missing" = Except.error 404 :=
  ⟨(request_spec (fun _ _ => ⟨200, [("ok", Value.vbool true)]⟩) "GET" "/health").1 rfl,
   (request_spec (fun _ _ => ⟨404, []⟩) "GET" "/missing").2 rfl⟩

/-- C10: the client methods `ControlPlaneClient.validate` and
`ControlPlaneClient.safe_validate` are extensionally equal to the
module-level `validate` and `safe_validate` of `validation.py`: both
pairs call `model_validate` and wrap it identically. -/
theorem client_validation_equals_module_validation (S : Shape)
    (d : List (String × Value)) :
    ControlPlaneClient.validate S d = validate S d ∧
    ControlPlaneClient.safe_validate S d = safe_validate S d :=
  ⟨rfl, rfl⟩

end ControlPlaneSDK
